import Mathlib

/-!
# Verification of `cpr::ThreadPool` (include/cpr/threadpool.h)

A shallow embedding of the thread pool in `include/cpr/threadpool.h`.
The header contains the full body of `Submit`, the configuration
mutators (`SetMinThreadNum`, `SetMaxThreadNum`, `SetMaxIdleTime`), the
accessors (`IsStarted`, `IsStopped`, `GetCurrentThreadNum`,
`GetIdleThreadNum`) and the member initializers of every field.  The
bodies of `Start`, `Stop`, `Pause`, `Resume`, `Wait`, `CreateThread` and
the worker loop live in a translation unit that is not part of the
sources at hand; those are modelled from the specification and marked as
such in their doc comments.

Machine integers: `min_thread_num`, `max_thread_num`, `cur_thread_num`,
`idle_thread_num` are `size_t` (unsigned); the counters are only ever
incremented by one, decremented when positive, and compared, so they are
embedded as `Nat` (the test `idle_thread_num <= 0` on an unsigned value
is exactly `= 0`).  Durations (`std::chrono::milliseconds`) are embedded
as `Nat` millisecond counts.

Tasks are identified by the order of their submission: the queue holds
task identifiers, fresh ones handed out by a `nextId` counter.  Ghost
fields `running`, `done` and `dequeued` record which tasks a worker is
busy with, which result handles have been written (fulfilled or failed),
and the order in which tasks were taken off the queue; they exist only
to state ordering and completeness properties and are written exactly
where the corresponding real event happens.
-/

namespace Cpr

/-- `enum Status { STOP, RUNNING, PAUSE }` from the header. -/
inductive Status where
  | STOP
  | RUNNING
  | PAUSE
deriving DecidableEq, Repr

/-- `constexpr size_t CPR_DEFAULT_THREAD_POOL_MIN_THREAD_NUM = 1`. -/
def CPR_DEFAULT_THREAD_POOL_MIN_THREAD_NUM : Nat := 1

/-- `constexpr std::chrono::milliseconds CPR_DEFAULT_THREAD_POOL_MAX_IDLE_TIME{250}`. -/
def CPR_DEFAULT_THREAD_POOL_MAX_IDLE_TIME : Nat := 250

/-- The state of a `cpr::ThreadPool` object.  The first six fields are
the data members of the class (with their header member initializers as
Lean default values); `queue` embeds `std::queue<Task> tasks` as the
list of pending task ids, head dequeued first.  `running`, `done`,
`dequeued` and `stopCalled` are ghost observation fields (see the module
comment). -/
structure ThreadPool where
  status : Status := Status.STOP
  min_thread_num : Nat
  max_thread_num : Nat
  max_idle_time : Nat
  cur_thread_num : Nat := 0
  idle_thread_num : Nat := 0
  queue : List Nat := []
  running : List Nat := []
  done : List Nat := []
  dequeued : List Nat := []
  nextId : Nat := 0
  stopCalled : Bool := false
deriving DecidableEq, Repr

/-- Modelled from the spec: the constructor `ThreadPool(min_threads,
max_threads, max_idle_ms)` (its body is not among the sources) stores
the three configuration values; every other member keeps its header
member initializer (`status{Status::STOP}`, `cur_thread_num{0}`,
`idle_thread_num{0}`, empty `tasks` queue) and no worker thread is
created before `Start` or `Submit` is called. -/
def mkThreadPool (min_threads max_threads max_idle_ms : Nat) : ThreadPool :=
  { min_thread_num := min_threads
    max_thread_num := max_threads
    max_idle_time := max_idle_ms }

/-- `bool IsStarted() const { return status != STOP; }` -/
def IsStarted (s : ThreadPool) : Bool :=
  decide (s.status ≠ Status.STOP)

/-- `bool IsStopped() const { return status == STOP; }` -/
def IsStopped (s : ThreadPool) : Bool :=
  decide (s.status = Status.STOP)

/-- `size_t GetCurrentThreadNum() { return cur_thread_num; }` -/
def GetCurrentThreadNum (s : ThreadPool) : Nat :=
  s.cur_thread_num

/-- `size_t GetIdleThreadNum() { return idle_thread_num; }` -/
def GetIdleThreadNum (s : ThreadPool) : Nat :=
  s.idle_thread_num

/-- `void SetMinThreadNum(size_t min_threads) { min_thread_num = min_threads; }` -/
def SetMinThreadNum (s : ThreadPool) (min_threads : Nat) : ThreadPool :=
  { s with min_thread_num := min_threads }

/-- `void SetMaxThreadNum(size_t max_threads) { max_thread_num = max_threads; }` -/
def SetMaxThreadNum (s : ThreadPool) (max_threads : Nat) : ThreadPool :=
  { s with max_thread_num := max_threads }

/-- `void SetMaxIdleTime(std::chrono::milliseconds ms) { max_idle_time = ms; }` -/
def SetMaxIdleTime (s : ThreadPool) (ms : Nat) : ThreadPool :=
  { s with max_idle_time := ms }

/-- Modelled from the spec: `Start(start_threads = 0)` (body not among
the sources) transitions the status to `Running` and, if no workers are
live, creates `max(start_threads, min_workers)` workers, each starting
idle; idempotent on the worker set if workers are already live. -/
def Start (s : ThreadPool) (start_threads : Nat) : ThreadPool :=
  if s.cur_thread_num = 0 then
    let n := Nat.max start_threads s.min_thread_num
    { s with status := Status.RUNNING, cur_thread_num := n, idle_thread_num := n }
  else
    { s with status := Status.RUNNING }

/-- Modelled from the spec: `Stop()` (body not among the sources)
transitions the status to `Stopped` and signals workers to exit; it
does not clear the task queue. -/
def Stop (s : ThreadPool) : ThreadPool :=
  { s with status := Status.STOP, stopCalled := true }

/-- Modelled from the spec: `Pause()` transitions `Running → Paused`
only; a no-op from any other status. -/
def Pause (s : ThreadPool) : ThreadPool :=
  if s.status = Status.RUNNING then { s with status := Status.PAUSE } else s

/-- Modelled from the spec: `Resume()` transitions `Paused → Running`
only; a no-op from any other status. -/
def Resume (s : ThreadPool) : ThreadPool :=
  if s.status = Status.PAUSE then { s with status := Status.RUNNING } else s

/-- Modelled from the spec: `CreateThread()` (body not among the
sources) spawns one worker, registers it and increments both
`cur_thread_num` and `idle_thread_num` (a new worker starts idle).  It
returns `bool`; the `ok` parameter is the outcome of the underlying
thread creation, and on failure the worker set is unchanged. -/
def CreateThread (s : ThreadPool) (ok : Bool) : ThreadPool :=
  if ok then
    { s with cur_thread_num := s.cur_thread_num + 1,
             idle_thread_num := s.idle_thread_num + 1 }
  else s

/-- Observable internal events of one `Submit` call, in program order. -/
inductive Ev where
  | startCall
  | createThreadCall
  | enqueue (id : Nat)
  | notifyOne
deriving DecidableEq, Repr

/-- Line 1 of `Submit`: `if (status == STOP) { Start(); }` (the default
argument of `Start` is `0`). -/
def submitAutoStart (s : ThreadPool) : ThreadPool :=
  if s.status = Status.STOP then Start s 0 else s

/-- Line 2 of `Submit`:
`if (idle_thread_num <= 0 && cur_thread_num < max_thread_num) { CreateThread(); }`.
`idle_thread_num` is an unsigned `size_t`, so `<= 0` is `= 0`.  The
`bool` returned by `CreateThread` is discarded; `ok` is the outcome of
the underlying thread creation. -/
def submitScaleUp (s : ThreadPool) (ok : Bool) : ThreadPool :=
  if s.idle_thread_num = 0 ∧ s.cur_thread_num < s.max_thread_num then
    CreateThread s ok
  else s

/-- The scale-up guard of line 2 of `Submit`, on the state it observes. -/
def scaleUpGuard (s : ThreadPool) : Prop :=
  s.idle_thread_num = 0 ∧ s.cur_thread_num < s.max_thread_num

instance (s : ThreadPool) : Decidable (scaleUpGuard s) := by
  unfold scaleUpGuard; infer_instance

/-- The body of `Submit(fn, args...)` from the header, line by line:

1. `if (status == STOP) { Start(); }` — `submitAutoStart`;
2. `if (idle_thread_num <= 0 && cur_thread_num < max_thread_num) { CreateThread(); }`
   — `submitScaleUp`;
3. wrap `fn`/`args` in a `packaged_task` (see `wrapTask`), take its
   future — a fresh task id;
4. `{ lock_guard; tasks.emplace(...) }` — push the wrapped task at the
   back of the queue;
5. `task_cond.notify_one()` and return the future.

The result is the new pool state, the id of the freshly created task
(the handle returned to the caller) and the trace of internal events in
the order they happen. -/
def Submit (s : ThreadPool) (ok : Bool) : ThreadPool × Nat × List Ev :=
  let s1 := submitAutoStart s
  let s2 := submitScaleUp s1 ok
  let id := s2.nextId
  let s3 := { s2 with queue := s2.queue ++ [id], nextId := id + 1 }
  let tr := (if s.status = Status.STOP then [Ev.startCall] else []) ++
            (if scaleUpGuard s1 then [Ev.createThreadCall] else []) ++
            [Ev.enqueue id, Ev.notifyOne]
  (s3, id, tr)

/-- The pool state after `Submit` (first component of the triple). -/
def submitState (s : ThreadPool) (ok : Bool) : ThreadPool :=
  (Submit s ok).1

/-- The task id (result handle) returned by `Submit`. -/
def submitId (s : ThreadPool) (ok : Bool) : Nat :=
  (Submit s ok).2.1

/-- The event trace of one `Submit` call. -/
def submitTrace (s : ThreadPool) (ok : Bool) : List Ev :=
  (Submit s ok).2.2

/-! ## Task wrapper and result handle

`Submit` builds
`std::packaged_task<RetType()>([fn = std::forward<Fn>(fn), args...]() mutable { return std::invoke(fn, args...); })`
and hands back its `std::future`.  A callable is embedded as a function
`α → Except ε β`: `.ok v` is a normal return of `v`, `.error e` is a
raised failure `e`.  The lambda captures `fn` and `args` by value at
submission time and defers the invocation. -/

/-- The capture-by-value lambda inside `Submit`: a zero-argument unit of
work that, when invoked later, calls `fn` on the arguments captured at
submission time. -/
def wrapTask {α ε β : Type} (fn : α → Except ε β) (args : α) : Unit → Except ε β :=
  fun _ => fn args

/-- A result handle: `none` while pending, `some (.ok v)` once
fulfilled with `v`, `some (.error e)` once failed with `e`. -/
def Handle (ε β : Type) : Type := Option (Except ε β)

/-- Per-worker state, from the spec's worker state machine. -/
inductive WorkerState where
  | Idle
  | Busy
  | Stopping
deriving DecidableEq, Repr

/-- Modelled from the spec: a worker executing one dequeued task (the
worker loop's body is not among the sources).  The `packaged_task`
invokes the stored unit of work and captures its outcome — value or
raised failure — into the task's shared state; the worker then returns
to `Idle` regardless of the outcome.  Returns the worker's state after
the task together with the now-written result handle. -/
def executeTask {ε β : Type} (t : Unit → Except ε β) : WorkerState × Handle ε β :=
  (WorkerState.Idle, some (t ()))

/-- Modelled from the spec: the worker writes the outcome of task `id`
into that task's result handle and no other; `handles` maps each task
id to its handle. -/
def storeOutcome {ε β : Type} (handles : Nat → Handle ε β) (id : Nat)
    (r : Except ε β) : Nat → Handle ε β :=
  fun j => if j = id then some r else handles j

/-! ## The transition system

Steps of the pool as a whole: the public operations plus the worker
loop's observable actions (dequeue a task, finish a task, a worker
exiting on stop or idle-timeout reaping).  The worker actions are
modelled from the spec since the worker loop is not among the
sources. -/

/-- One observable step of the pool. `dequeue` takes the task at the
front of the queue (a worker turning `Busy`); `finish` completes any
currently running task, writing its handle (`done`); `workerExit` is a
worker leaving on stop or idle reaping. -/
inductive Step : ThreadPool → ThreadPool → Prop where
  | submit (s : ThreadPool) (ok : Bool) : Step s (submitState s ok)
  | start (s : ThreadPool) (n : Nat) : Step s (Start s n)
  | stop (s : ThreadPool) : Step s (Stop s)
  | pause (s : ThreadPool) : Step s (Pause s)
  | resume (s : ThreadPool) : Step s (Resume s)
  | setMin (s : ThreadPool) (n : Nat) : Step s (SetMinThreadNum s n)
  | setMax (s : ThreadPool) (n : Nat) : Step s (SetMaxThreadNum s n)
  | setIdle (s : ThreadPool) (n : Nat) : Step s (SetMaxIdleTime s n)
  | dequeue (s : ThreadPool) (id : Nat) (rest : List Nat) :
      s.status = Status.RUNNING → s.queue = id :: rest →
      Step s { s with queue := rest,
                      running := s.running ++ [id],
                      dequeued := s.dequeued ++ [id],
                      idle_thread_num := s.idle_thread_num - 1 }
  | finish (s : ThreadPool) (id : Nat) (front back : List Nat) :
      s.running = front ++ id :: back →
      Step s { s with running := front ++ back,
                      done := s.done ++ [id],
                      idle_thread_num := s.idle_thread_num + 1 }
  | workerExit (s : ThreadPool) :
      0 < s.cur_thread_num →
      Step s { s with cur_thread_num := s.cur_thread_num - 1,
                      idle_thread_num := s.idle_thread_num - 1 }

/-- Reachability from an initial (freshly constructed) pool. -/
def Reachable (init s : ThreadPool) : Prop :=
  Relation.ReflTransGen Step init s

/-- The pool invariant tying the queue, the ghost execution record and
the id supply together:

1. the pending queue is strictly increasing in submission order;
2. the dequeue record is strictly increasing (tasks start in FIFO order);
3. everything already dequeued precedes everything still queued;
4. every id in the queue is a past `nextId`;
5. every dequeued id is a past `nextId`;
6. every issued id is still queued or was dequeued (no task is lost);
7. the dequeue record is, up to completion order, exactly the running
   and completed tasks (each consumed task is running or done, once). -/
def Inv (s : ThreadPool) : Prop :=
  s.queue.Pairwise (· < ·) ∧
  s.dequeued.Pairwise (· < ·) ∧
  (∀ i ∈ s.dequeued, ∀ j ∈ s.queue, i < j) ∧
  (∀ i ∈ s.queue, i < s.nextId) ∧
  (∀ i ∈ s.dequeued, i < s.nextId) ∧
  (∀ i, i < s.nextId → i ∈ s.queue ∨ i ∈ s.dequeued) ∧
  s.dequeued.Perm (s.running ++ s.done)

/-- Modelled from the spec: `Wait()` (body not among the sources)
blocks until the task queue is empty and no worker is busy; it is
declared `int Wait() const` in the header, so it cannot mutate the pool
— the state it returns control over is the state it was called on. -/
def Wait (s : ThreadPool) : ThreadPool := s

/-- Modelled from the spec: the condition under which `Wait()` returns
— the task queue is empty and no worker is `Busy`. -/
def WaitReturns (s : ThreadPool) : Prop :=
  s.queue = [] ∧ s.running = []

/-- A running pool with one busy worker and none idle, with room to
grow (maximum 4): the state in which `Submit`'s eager scale-up fires. -/
def busyPool : ThreadPool :=
  { status := Status.RUNNING, min_thread_num := 1, max_thread_num := 4,
    max_idle_time := 250, cur_thread_num := 1, idle_thread_num := 0 }

/-- A freshly constructed pool: `ThreadPool(1, 4, 250ms)`. -/
def pool0 : ThreadPool := mkThreadPool 1 4 250

/-- `pool0` after one `Submit`: auto-started with the one minimum
worker, task 0 queued. -/
def poolA : ThreadPool :=
  { status := Status.RUNNING, min_thread_num := 1, max_thread_num := 4,
    max_idle_time := 250, cur_thread_num := 1, idle_thread_num := 1,
    queue := [0], nextId := 1 }

/-- `poolA` after the worker dequeues task 0. -/
def poolB : ThreadPool :=
  { poolA with queue := [], running := [0], dequeued := [0],
               idle_thread_num := 0 }

/-- `poolB` after the worker finishes task 0 and writes its handle. -/
def poolC : ThreadPool :=
  { poolB with running := [], done := [0], idle_thread_num := 1 }

/-! ### Field-preservation lemmas -/

/-- The task-related fields of a pool state: queue, running, done,
dequeued, next id.  `Inv` depends only on these. -/
def taskView (s : ThreadPool) : List Nat × List Nat × List Nat × List Nat × Nat :=
  (s.queue, s.running, s.done, s.dequeued, s.nextId)

theorem Inv_of_taskView_eq {s t : ThreadPool} (h : taskView s = taskView t)
    (hs : Inv s) : Inv t := by
  unfold taskView at h
  obtain ⟨hq, hr, hd, hdq, hn⟩ :
      s.queue = t.queue ∧ s.running = t.running ∧ s.done = t.done ∧
      s.dequeued = t.dequeued ∧ s.nextId = t.nextId := by
    simpa using h
  unfold Inv at hs ⊢
  rw [← hq, ← hr, ← hd, ← hdq, ← hn]
  exact hs

theorem Start_taskView (s : ThreadPool) (n : Nat) :
    taskView (Start s n) = taskView s := by
  unfold Start taskView; split <;> rfl

theorem Stop_taskView (s : ThreadPool) :
    taskView (Stop s) = taskView s := rfl

theorem Pause_taskView (s : ThreadPool) :
    taskView (Pause s) = taskView s := by
  unfold Pause taskView; split <;> rfl

theorem Resume_taskView (s : ThreadPool) :
    taskView (Resume s) = taskView s := by
  unfold Resume taskView; split <;> rfl

theorem CreateThread_taskView (s : ThreadPool) (ok : Bool) :
    taskView (CreateThread s ok) = taskView s := by
  unfold CreateThread taskView; split <;> rfl

theorem submitAutoStart_taskView (s : ThreadPool) :
    taskView (submitAutoStart s) = taskView s := by
  unfold submitAutoStart
  split
  · exact Start_taskView s 0
  · rfl

theorem submitScaleUp_taskView (s : ThreadPool) (ok : Bool) :
    taskView (submitScaleUp s ok) = taskView s := by
  unfold submitScaleUp
  split
  · exact CreateThread_taskView s ok
  · rfl

/-! ### Invariant preservation -/

theorem Inv_push {s : ThreadPool} (h : Inv s) :
    Inv { s with queue := s.queue ++ [s.nextId], nextId := s.nextId + 1 } := by
  obtain ⟨h1, h2, h3, h4, h5, h6, h7⟩ := h
  refine ⟨?_, h2, ?_, ?_, ?_, ?_, h7⟩
  · refine List.pairwise_append.mpr ⟨h1, List.pairwise_singleton _ _, ?_⟩
    intro a ha b hb
    rw [List.mem_singleton] at hb
    exact hb ▸ h4 a ha
  · intro i hi j hj
    rcases List.mem_append.mp hj with hj | hj
    · exact h3 i hi j hj
    · rw [List.mem_singleton] at hj
      exact hj ▸ h5 i hi
  · intro i hi
    rcases List.mem_append.mp hi with hi | hi
    · exact Nat.lt_succ_of_lt (h4 i hi)
    · rw [List.mem_singleton] at hi
      exact hi ▸ Nat.lt_succ_self _
  · intro i hi
    exact Nat.lt_succ_of_lt (h5 i hi)
  · intro i hi
    rcases Nat.lt_succ_iff_lt_or_eq.mp hi with hi | hi
    · rcases h6 i hi with hq | hd
      · exact Or.inl (List.mem_append_left _ hq)
      · exact Or.inr hd
    · exact Or.inl (List.mem_append_right _ (hi ▸ List.mem_singleton_self _))

theorem Inv_dequeue {s : ThreadPool} {id : Nat} {rest : List Nat}
    (hq : s.queue = id :: rest) (h : Inv s) :
    Inv { s with queue := rest,
                 running := s.running ++ [id],
                 dequeued := s.dequeued ++ [id],
                 idle_thread_num := s.idle_thread_num - 1 } := by
  obtain ⟨h1, h2, h3, h4, h5, h6, h7⟩ := h
  rw [hq] at h1 h3 h4 h6
  have hid_mem : id ∈ s.queue := hq ▸ List.mem_cons_self id rest
  have hpc := List.pairwise_cons.mp h1
  refine ⟨hpc.2, ?_, ?_, ?_, ?_, ?_, ?_⟩
  · refine List.pairwise_append.mpr ⟨h2, List.pairwise_singleton _ _, ?_⟩
    intro a ha b hb
    rw [List.mem_singleton] at hb
    exact hb ▸ h3 a ha id (List.mem_cons_self id rest)
  · intro i hi j hj
    rcases List.mem_append.mp hi with hi | hi
    · exact h3 i hi j (List.mem_cons_of_mem id hj)
    · rw [List.mem_singleton] at hi
      exact hi ▸ hpc.1 j hj
  · intro i hi
    exact h4 i (List.mem_cons_of_mem id hi)
  · intro i hi
    rcases List.mem_append.mp hi with hi | hi
    · exact h5 i hi
    · rw [List.mem_singleton] at hi
      exact hi ▸ h4 id (List.mem_cons_self id rest)
  · intro i hi
    rcases h6 i hi with hmem | hd
    · rcases List.mem_cons.mp hmem with hi0 | hr
      · exact Or.inr (List.mem_append_right _ (hi0 ▸ List.mem_singleton_self _))
      · exact Or.inl hr
    · exact Or.inr (List.mem_append_left _ hd)
  · show List.Perm (s.dequeued ++ [id]) ((s.running ++ [id]) ++ s.done)
    refine (h7.append_right [id]).trans ?_
    rw [List.append_assoc, List.append_assoc]
    exact List.Perm.append_left s.running (List.perm_append_singleton id s.done)

theorem Inv_finish {s : ThreadPool} {id : Nat} {front back : List Nat}
    (hr : s.running = front ++ id :: back) (h : Inv s) :
    Inv { s with running := front ++ back,
                 done := s.done ++ [id],
                 idle_thread_num := s.idle_thread_num + 1 } := by
  obtain ⟨h1, h2, h3, h4, h5, h6, h7⟩ := h
  refine ⟨h1, h2, h3, h4, h5, h6, ?_⟩
  rw [hr] at h7
  show List.Perm s.dequeued ((front ++ back) ++ (s.done ++ [id]))
  refine h7.trans ?_
  refine (List.perm_middle.append_right s.done).trans ?_
  show List.Perm (id :: ((front ++ back) ++ s.done)) _
  refine ((List.perm_append_singleton id ((front ++ back) ++ s.done)).symm).trans ?_
  rw [List.append_assoc]

theorem Step_preserves_Inv {s t : ThreadPool} (hstep : Step s t) (h : Inv s) :
    Inv t := by
  cases hstep with
  | submit ok =>
      have hmid : Inv (submitScaleUp (submitAutoStart s) ok) :=
        Inv_of_taskView_eq
          ((submitScaleUp_taskView _ ok).trans (submitAutoStart_taskView s)).symm h
      exact Inv_push hmid
  | start n => exact Inv_of_taskView_eq (Start_taskView s n).symm h
  | stop => exact Inv_of_taskView_eq (Stop_taskView s).symm h
  | pause => exact Inv_of_taskView_eq (Pause_taskView s).symm h
  | resume => exact Inv_of_taskView_eq (Resume_taskView s).symm h
  | setMin n => exact h
  | setMax n => exact h
  | setIdle n => exact h
  | dequeue id rest hrun hq => exact Inv_dequeue hq h
  | finish id front back hr => exact Inv_finish hr h
  | workerExit hpos => exact h

theorem mkThreadPool_Inv (a b c : Nat) : Inv (mkThreadPool a b c) := by
  refine ⟨?_, ?_, ?_, ?_, ?_, ?_, ?_⟩ <;> simp [mkThreadPool]

theorem Reachable_Inv {init s : ThreadPool} (hreach : Reachable init s)
    (hinit : Inv init) : Inv s := by
  induction hreach with
  | refl => exact hinit
  | tail hsteps hstep ih => exact Step_preserves_Inv hstep ih

/-! ### What one `Submit` call does to each field -/

theorem taskView_queue_eq {s t : ThreadPool} (h : taskView s = taskView t) :
    s.queue = t.queue :=
  congrArg (fun p => p.1) h

theorem taskView_running_eq {s t : ThreadPool} (h : taskView s = taskView t) :
    s.running = t.running :=
  congrArg (fun p => p.2.1) h

theorem taskView_done_eq {s t : ThreadPool} (h : taskView s = taskView t) :
    s.done = t.done :=
  congrArg (fun p => p.2.2.1) h

theorem taskView_dequeued_eq {s t : ThreadPool} (h : taskView s = taskView t) :
    s.dequeued = t.dequeued :=
  congrArg (fun p => p.2.2.2.1) h

theorem taskView_nextId_eq {s t : ThreadPool} (h : taskView s = taskView t) :
    s.nextId = t.nextId :=
  congrArg (fun p => p.2.2.2.2) h

/-- The taskView of the state `Submit` observes when it pushes. -/
theorem submitMid_taskView (s : ThreadPool) (ok : Bool) :
    taskView (submitScaleUp (submitAutoStart s) ok) = taskView s :=
  (submitScaleUp_taskView (submitAutoStart s) ok).trans (submitAutoStart_taskView s)

theorem submitState_eq (s : ThreadPool) (ok : Bool) :
    submitState s ok =
      { submitScaleUp (submitAutoStart s) ok with
        queue := (submitScaleUp (submitAutoStart s) ok).queue ++
                 [(submitScaleUp (submitAutoStart s) ok).nextId],
        nextId := (submitScaleUp (submitAutoStart s) ok).nextId + 1 } := rfl

theorem submitId_eq (s : ThreadPool) (ok : Bool) : submitId s ok = s.nextId :=
  taskView_nextId_eq (submitMid_taskView s ok)

theorem submitState_queue (s : ThreadPool) (ok : Bool) :
    (submitState s ok).queue = s.queue ++ [s.nextId] := by
  rw [submitState_eq]
  rw [show ({ submitScaleUp (submitAutoStart s) ok with
        queue := (submitScaleUp (submitAutoStart s) ok).queue ++
                 [(submitScaleUp (submitAutoStart s) ok).nextId],
        nextId := (submitScaleUp (submitAutoStart s) ok).nextId + 1 } : ThreadPool).queue =
      (submitScaleUp (submitAutoStart s) ok).queue ++
        [(submitScaleUp (submitAutoStart s) ok).nextId] from rfl]
  rw [taskView_queue_eq (submitMid_taskView s ok),
      taskView_nextId_eq (submitMid_taskView s ok)]

theorem submitState_nextId (s : ThreadPool) (ok : Bool) :
    (submitState s ok).nextId = s.nextId + 1 := by
  rw [submitState_eq]
  rw [show ({ submitScaleUp (submitAutoStart s) ok with
        queue := (submitScaleUp (submitAutoStart s) ok).queue ++
                 [(submitScaleUp (submitAutoStart s) ok).nextId],
        nextId := (submitScaleUp (submitAutoStart s) ok).nextId + 1 } : ThreadPool).nextId =
      (submitScaleUp (submitAutoStart s) ok).nextId + 1 from rfl]
  rw [taskView_nextId_eq (submitMid_taskView s ok)]

theorem submitState_running (s : ThreadPool) (ok : Bool) :
    (submitState s ok).running = s.running := by
  rw [submitState_eq]
  show (submitScaleUp (submitAutoStart s) ok).running = s.running
  exact taskView_running_eq (submitMid_taskView s ok)

theorem submitState_done (s : ThreadPool) (ok : Bool) :
    (submitState s ok).done = s.done := by
  rw [submitState_eq]
  show (submitScaleUp (submitAutoStart s) ok).done = s.done
  exact taskView_done_eq (submitMid_taskView s ok)

theorem submitState_dequeued (s : ThreadPool) (ok : Bool) :
    (submitState s ok).dequeued = s.dequeued := by
  rw [submitState_eq]
  show (submitScaleUp (submitAutoStart s) ok).dequeued = s.dequeued
  exact taskView_dequeued_eq (submitMid_taskView s ok)

theorem submitTrace_eq (s : ThreadPool) (ok : Bool) :
    submitTrace s ok =
      (if s.status = Status.STOP then [Ev.startCall] else []) ++
      (if scaleUpGuard (submitAutoStart s) then [Ev.createThreadCall] else []) ++
      [Ev.enqueue (submitId s ok), Ev.notifyOne] := rfl

/-! ## The claims -/

/-- C9: in every pool state exactly one of `IsStarted()` and
`IsStopped()` returns true; `IsStopped()` is true precisely when the
status is `Stopped`, and `IsStarted()` is true for both `Running` and
`Paused` (a paused pool counts as started). -/
theorem claim_C9_started_stopped_partition (s : ThreadPool) :
    IsStarted s ≠ IsStopped s ∧
    (IsStopped s = true ↔ s.status = Status.STOP) ∧
    (IsStarted s = true ↔ s.status = Status.RUNNING ∨ s.status = Status.PAUSE) := by
  cases hs : s.status <;> simp [IsStarted, IsStopped, hs]

/-- C10: a freshly constructed pool (any detected hardware concurrency
`hw` as the default `max_threads`) is in the `Stopped` status with
current worker count 0 and idle worker count 0, an empty queue and no
running or finished task, while the configured minimum worker count
defaults to 1. -/
theorem claim_C10_fresh_pool_stopped (hw : Nat) :
    (mkThreadPool CPR_DEFAULT_THREAD_POOL_MIN_THREAD_NUM hw
        CPR_DEFAULT_THREAD_POOL_MAX_IDLE_TIME).status = Status.STOP ∧
    IsStopped (mkThreadPool CPR_DEFAULT_THREAD_POOL_MIN_THREAD_NUM hw
        CPR_DEFAULT_THREAD_POOL_MAX_IDLE_TIME) = true ∧
    GetCurrentThreadNum (mkThreadPool CPR_DEFAULT_THREAD_POOL_MIN_THREAD_NUM hw
        CPR_DEFAULT_THREAD_POOL_MAX_IDLE_TIME) = 0 ∧
    GetIdleThreadNum (mkThreadPool CPR_DEFAULT_THREAD_POOL_MIN_THREAD_NUM hw
        CPR_DEFAULT_THREAD_POOL_MAX_IDLE_TIME) = 0 ∧
    (mkThreadPool CPR_DEFAULT_THREAD_POOL_MIN_THREAD_NUM hw
        CPR_DEFAULT_THREAD_POOL_MAX_IDLE_TIME).queue = [] ∧
    (mkThreadPool CPR_DEFAULT_THREAD_POOL_MIN_THREAD_NUM hw
        CPR_DEFAULT_THREAD_POOL_MAX_IDLE_TIME).running = [] ∧
    (mkThreadPool CPR_DEFAULT_THREAD_POOL_MIN_THREAD_NUM hw
        CPR_DEFAULT_THREAD_POOL_MAX_IDLE_TIME).min_thread_num = 1 ∧
    CPR_DEFAULT_THREAD_POOL_MIN_THREAD_NUM = 1 := by
  refine ⟨rfl, rfl, rfl, rfl, rfl, rfl, rfl, rfl⟩

/-- C6, counterexample: `SetMaxThreadNum` performs no validation — on a
pool whose minimum is 2, setting the maximum to 1 is accepted silently
(the invalid configuration `max_thread_num < min_thread_num` is simply
stored; the mutator returns `void`, so nothing is surfaced to the
caller). -/
theorem claim_C6_counterexample :
    (SetMaxThreadNum (mkThreadPool 2 8 250) 1).max_thread_num = 1 ∧
    (SetMaxThreadNum (mkThreadPool 2 8 250) 1).min_thread_num = 2 ∧
    (SetMaxThreadNum (mkThreadPool 2 8 250) 1).max_thread_num <
      (SetMaxThreadNum (mkThreadPool 2 8 250) 1).min_thread_num := by
  refine ⟨rfl, rfl, by decide⟩

/-- C6, amended: the configuration mutators `SetMinThreadNum`,
`SetMaxThreadNum` and `SetMaxIdleTime` unconditionally store the new
value and report nothing back; in particular `max_workers <
min_workers` is not detected — the invalid pair is accepted silently
and the other configuration fields are left untouched. -/
theorem claim_C6_setters_no_validation (s : ThreadPool) (m k t : Nat) :
    (SetMinThreadNum s m).min_thread_num = m ∧
    (SetMaxThreadNum s k).max_thread_num = k ∧
    (SetMaxIdleTime s t).max_idle_time = t ∧
    (SetMaxThreadNum s k).min_thread_num = s.min_thread_num ∧
    (SetMinThreadNum s m).max_thread_num = s.max_thread_num ∧
    (SetMaxThreadNum s k).status = s.status := by
  refine ⟨rfl, rfl, rfl, rfl, rfl, rfl⟩

theorem submitScaleUp_false (s : ThreadPool) : submitScaleUp s false = s := by
  unfold submitScaleUp CreateThread
  split <;> rfl

/-- C1: `Submit` invokes `Start()` exactly when the status is `Stopped`
at the time of the call, and does so before enqueuing the task (the
`startCall` event heads the trace, the `enqueue` event comes later);
for `Running` or `Paused` status `Start` is not invoked. -/
theorem claim_C1_submit_auto_start (s : ThreadPool) (ok : Bool) :
    (Ev.startCall ∈ submitTrace s ok ↔ s.status = Status.STOP) ∧
    (s.status = Status.STOP →
      ∃ l, submitTrace s ok = Ev.startCall :: l ∧
        Ev.enqueue (submitId s ok) ∈ l) := by
  constructor
  · rw [submitTrace_eq]
    by_cases hst : s.status = Status.STOP <;>
      by_cases hg : scaleUpGuard (submitAutoStart s) <;>
        simp [hst, hg]
  · intro hst
    rw [submitTrace_eq, if_pos hst]
    exact ⟨(if scaleUpGuard (submitAutoStart s) then [Ev.createThreadCall] else []) ++
      [Ev.enqueue (submitId s ok), Ev.notifyOne], rfl, by simp⟩

/-- C1 witness: on a fresh (stopped) pool, `Submit` does call `Start`
and only then enqueues. -/
theorem claim_C1_submit_auto_start_witness :
    Ev.startCall ∈ submitTrace (mkThreadPool 1 4 250) true ∧
    ∃ l, submitTrace (mkThreadPool 1 4 250) true = Ev.startCall :: l ∧
      Ev.enqueue (submitId (mkThreadPool 1 4 250) true) ∈ l :=
  ⟨(claim_C1_submit_auto_start (mkThreadPool 1 4 250) true).1.mpr rfl,
   (claim_C1_submit_auto_start (mkThreadPool 1 4 250) true).2 rfl⟩

/-- C2: `Submit` calls `CreateThread` exactly once when, at the check
(after any auto-start), the idle worker count is zero and the current
worker count is strictly below `max_thread_num`, and not at all
otherwise; a successful `CreateThread` adds exactly one worker, and a
scale-up that fires never pushes the worker count past
`max_thread_num`. -/
theorem claim_C2_bounded_scale_up (s : ThreadPool) (ok : Bool) :
    List.count Ev.createThreadCall (submitTrace s ok) =
      (if scaleUpGuard (submitAutoStart s) then 1 else 0) ∧
    (Ev.createThreadCall ∈ submitTrace s ok ↔
      (submitAutoStart s).idle_thread_num = 0 ∧
      (submitAutoStart s).cur_thread_num < (submitAutoStart s).max_thread_num) ∧
    (CreateThread (submitAutoStart s) true).cur_thread_num =
      (submitAutoStart s).cur_thread_num + 1 ∧
    (scaleUpGuard (submitAutoStart s) →
      (CreateThread (submitAutoStart s) ok).cur_thread_num ≤
        (submitAutoStart s).max_thread_num) := by
  refine ⟨?_, ?_, rfl, ?_⟩
  · rw [submitTrace_eq]
    by_cases hst : s.status = Status.STOP <;>
      by_cases hg : scaleUpGuard (submitAutoStart s) <;>
        simp [hst, hg]
  · show Ev.createThreadCall ∈ submitTrace s ok ↔ scaleUpGuard (submitAutoStart s)
    rw [submitTrace_eq]
    by_cases hst : s.status = Status.STOP <;>
      by_cases hg : scaleUpGuard (submitAutoStart s) <;>
        simp [hst, hg]
  · intro hg
    unfold CreateThread
    cases ok with
    | true => exact Nat.succ_le_of_lt hg.2
    | false => exact Nat.le_of_lt hg.2

/-- C2 witness: on a running pool with one busy worker, none idle and a
maximum of 4, `Submit` attempts exactly one `CreateThread` and stays
within the maximum. -/
theorem claim_C2_bounded_scale_up_witness :
    List.count Ev.createThreadCall (submitTrace busyPool true) =
      (if scaleUpGuard (submitAutoStart busyPool) then 1 else 0) ∧
    (Ev.createThreadCall ∈ submitTrace busyPool true ↔
      (submitAutoStart busyPool).idle_thread_num = 0 ∧
      (submitAutoStart busyPool).cur_thread_num <
        (submitAutoStart busyPool).max_thread_num) ∧
    (CreateThread (submitAutoStart busyPool) true).cur_thread_num =
      (submitAutoStart busyPool).cur_thread_num + 1 ∧
    (CreateThread (submitAutoStart busyPool) true).cur_thread_num ≤
      (submitAutoStart busyPool).max_thread_num :=
  ⟨(claim_C2_bounded_scale_up busyPool true).1,
   (claim_C2_bounded_scale_up busyPool true).2.1,
   (claim_C2_bounded_scale_up busyPool true).2.2.1,
   (claim_C2_bounded_scale_up busyPool true).2.2.2 (by decide)⟩

/-- C5: `Submit` pushes the new entry at the back of the queue, wakes
exactly one waiting worker (`notify_one`), and hands back the fresh
result handle before any execution: at return the new task has not been
dequeued, is not running and has no written outcome; the wrapped unit
of work defers the invocation of the callable on the arguments captured
at submission time. -/
theorem claim_C5_submit_returns_immediately {α ε β : Type} (s : ThreadPool)
    (ok : Bool) (h : Inv s) (fn : α → Except ε β) (args : α) :
    (submitState s ok).queue = s.queue ++ [submitId s ok] ∧
    List.count Ev.notifyOne (submitTrace s ok) = 1 ∧
    (submitState s ok).dequeued = s.dequeued ∧
    submitId s ok ∉ (submitState s ok).running ∧
    submitId s ok ∉ (submitState s ok).done ∧
    wrapTask fn args () = fn args := by
  obtain ⟨h1, h2, h3, h4, h5, h6, h7⟩ := h
  refine ⟨by rw [submitState_queue, submitId_eq], ?_, submitState_dequeued s ok,
    ?_, ?_, rfl⟩
  · rw [submitTrace_eq]
    by_cases hst : s.status = Status.STOP <;>
      by_cases hg : scaleUpGuard (submitAutoStart s) <;>
        simp [hst, hg]
  · rw [submitState_running, submitId_eq]
    intro hmem
    have hd : s.nextId ∈ s.dequeued :=
      h7.mem_iff.mpr (List.mem_append_left s.done hmem)
    exact absurd (h5 _ hd) (Nat.lt_irrefl s.nextId)
  · rw [submitState_done, submitId_eq]
    intro hmem
    have hd : s.nextId ∈ s.dequeued :=
      h7.mem_iff.mpr (List.mem_append_right s.running hmem)
    exact absurd (h5 _ hd) (Nat.lt_irrefl s.nextId)

/-- C5 witness: on a fresh pool the submitted entry is queued at the
back, one worker is woken, and the returned handle is still pending. -/
theorem claim_C5_submit_returns_immediately_witness :
    (submitState (mkThreadPool 1 4 250) true).queue =
      (mkThreadPool 1 4 250).queue ++ [submitId (mkThreadPool 1 4 250) true] ∧
    List.count Ev.notifyOne (submitTrace (mkThreadPool 1 4 250) true) = 1 ∧
    (submitState (mkThreadPool 1 4 250) true).dequeued =
      (mkThreadPool 1 4 250).dequeued ∧
    submitId (mkThreadPool 1 4 250) true ∉
      (submitState (mkThreadPool 1 4 250) true).running ∧
    submitId (mkThreadPool 1 4 250) true ∉
      (submitState (mkThreadPool 1 4 250) true).done ∧
    wrapTask (fun n : Nat => (Except.ok n : Except Nat Nat)) 5 () =
      (fun n : Nat => (Except.ok n : Except Nat Nat)) 5 :=
  claim_C5_submit_returns_immediately (mkThreadPool 1 4 250) true
    (mkThreadPool_Inv 1 4 250) (fun n : Nat => (Except.ok n : Except Nat Nat)) 5

/-- C7: when the internal scale-up's thread creation fails (`ok =
false`), `Submit` still proceeds: the task is queued at the back, the
enqueue event is in the trace, the handle (fresh task id) is returned,
and the worker set is exactly the one left by the auto-start step —
thread-creation failure does not abort the submission. -/
theorem claim_C7_thread_creation_failure_nonfatal (s : ThreadPool) :
    (submitState s false).queue = s.queue ++ [submitId s false] ∧
    Ev.enqueue (submitId s false) ∈ submitTrace s false ∧
    (submitState s false).cur_thread_num = (submitAutoStart s).cur_thread_num ∧
    (submitState s false).idle_thread_num = (submitAutoStart s).idle_thread_num := by
  refine ⟨by rw [submitState_queue, submitId_eq], ?_, ?_, ?_⟩
  · rw [submitTrace_eq]
    by_cases hst : s.status = Status.STOP <;>
      by_cases hg : scaleUpGuard (submitAutoStart s) <;>
        simp [hst, hg]
  · rw [submitState_eq, submitScaleUp_false]
  · rw [submitState_eq, submitScaleUp_false]

/-- C3: the task wrapper confines a callable's outcome to its own
result handle — executing the wrapped unit writes exactly the
callable's outcome (`ok v` on a normal return of `v`, `error e` on a
raised failure `e`) into the handle, the worker comes back `Idle`
(never `Stopping`), and writing task `id`'s handle leaves every other
task's handle untouched. -/
theorem claim_C3_result_correctness {α ε β : Type} (fn : α → Except ε β)
    (args : α) (handles : Nat → Handle ε β) (id j : Nat) (hj : j ≠ id) :
    (executeTask (wrapTask fn args)).2 = some (fn args) ∧
    (executeTask (wrapTask fn args)).1 = WorkerState.Idle ∧
    storeOutcome handles id (fn args) id = some (fn args) ∧
    storeOutcome handles id (fn args) j = handles j := by
  refine ⟨rfl, rfl, by unfold storeOutcome; rw [if_pos rfl], ?_⟩
  unfold storeOutcome
  rw [if_neg hj]

/-- C3 witness: a callable that raises on even input and returns the
successor otherwise — the handle of task 0 captures the outcome exactly
and task 1's handle is untouched. -/
theorem claim_C3_result_correctness_witness :
    (executeTask (wrapTask (fun n : Nat =>
        if n % 2 = 0 then (Except.error 7 : Except Nat Nat)
        else Except.ok (n + 1)) 2)).2 =
      some ((fun n : Nat =>
        if n % 2 = 0 then (Except.error 7 : Except Nat Nat)
        else Except.ok (n + 1)) 2) ∧
    (executeTask (wrapTask (fun n : Nat =>
        if n % 2 = 0 then (Except.error 7 : Except Nat Nat)
        else Except.ok (n + 1)) 2)).1 = WorkerState.Idle ∧
    storeOutcome (fun _ => none) 0 ((fun n : Nat =>
        if n % 2 = 0 then (Except.error 7 : Except Nat Nat)
        else Except.ok (n + 1)) 2) 0 =
      some ((fun n : Nat =>
        if n % 2 = 0 then (Except.error 7 : Except Nat Nat)
        else Except.ok (n + 1)) 2) ∧
    storeOutcome (fun _ => none) 0 ((fun n : Nat =>
        if n % 2 = 0 then (Except.error 7 : Except Nat Nat)
        else Except.ok (n + 1)) 2) 1 = (fun _ => none) 1 :=
  claim_C3_result_correctness
    (fun n : Nat =>
      if n % 2 = 0 then (Except.error 7 : Except Nat Nat)
      else Except.ok (n + 1)) 2 (fun _ => none) 0 1 (by decide)

/-! ### A concrete run: submit, dequeue, finish -/

theorem step_pool0_poolA : Step pool0 poolA := by
  have h : submitState pool0 true = poolA := by decide
  exact h ▸ Step.submit pool0 true

theorem step_poolA_poolB : Step poolA poolB := by
  have h : ({ poolA with queue := ([] : List Nat),
                         running := poolA.running ++ [0],
                         dequeued := poolA.dequeued ++ [0],
                         idle_thread_num := poolA.idle_thread_num - 1 } :
      ThreadPool) = poolB := by decide
  exact h ▸ Step.dequeue poolA 0 [] (by decide) (by decide)

theorem step_poolB_poolC : Step poolB poolC := by
  have h : ({ poolB with running := ([] : List Nat) ++ [],
                         done := poolB.done ++ [0],
                         idle_thread_num := poolB.idle_thread_num + 1 } :
      ThreadPool) = poolC := by decide
  exact h ▸ Step.finish poolB 0 [] [] (by decide)

theorem reach_poolC : Reachable pool0 poolC :=
  Relation.ReflTransGen.tail
    (Relation.ReflTransGen.tail
      (Relation.ReflTransGen.single step_pool0_poolA) step_poolA_poolB)
    step_poolB_poolC

/-- C4: in every reachable pool state the queue lists the pending tasks
in submission order (strictly increasing ids), tasks are taken off the
queue in that same FIFO order (the dequeue record is strictly
increasing), no task is consumed twice (the running and completed tasks
are pairwise distinct), a consumed task is never back in the queue, and
a new submission goes to the back of the queue with the next fresh
id. -/
theorem claim_C4_fifo_single_consumption {init s : ThreadPool}
    (hinit : Inv init) (hreach : Reachable init s) :
    s.queue.Pairwise (· < ·) ∧
    s.dequeued.Pairwise (· < ·) ∧
    (s.running ++ s.done).Nodup ∧
    (∀ i ∈ s.queue, i ∉ s.dequeued) ∧
    (∀ ok, (submitState s ok).queue = s.queue ++ [s.nextId]) := by
  obtain ⟨h1, h2, h3, h4, h5, h6, h7⟩ := Reachable_Inv hreach hinit
  refine ⟨h1, h2, ?_, ?_, fun ok => submitState_queue s ok⟩
  · exact h7.nodup_iff.mp (h2.imp Nat.ne_of_lt)
  · intro i hiq hid
    exact absurd (h3 i hid i hiq) (Nat.lt_irrefl i)

/-- C4 witness: after submitting task 0, dequeuing it and finishing it,
the queue and the consumption record satisfy the FIFO and
at-most-once properties. -/
theorem claim_C4_fifo_single_consumption_witness :
    poolC.queue.Pairwise (· < ·) ∧
    poolC.dequeued.Pairwise (· < ·) ∧
    (poolC.running ++ poolC.done).Nodup ∧
    (∀ i ∈ poolC.queue, i ∉ poolC.dequeued) ∧
    (∀ ok, (submitState poolC ok).queue = poolC.queue ++ [poolC.nextId]) :=
  claim_C4_fifo_single_consumption (mkThreadPool_Inv 1 4 250) reach_poolC

/-- C8: in every reachable state in which `Wait()`'s return condition
holds (empty queue, no busy worker) and `Stop()` was never called,
every one of the `nextId` submitted tasks has its result handle written
(is in `done`); and `Wait`, a `const` member, does not change the pool
state — in particular it does not stop the pool. -/
theorem claim_C8_wait_completeness {init s : ThreadPool} (hinit : Inv init)
    (hreach : Reachable init s) (_hnostop : s.stopCalled = false)
    (hw : WaitReturns s) :
    (∀ i, i < s.nextId → i ∈ s.done) ∧ Wait s = s := by
  obtain ⟨h1, h2, h3, h4, h5, h6, h7⟩ := Reachable_Inv hreach hinit
  refine ⟨?_, rfl⟩
  intro i hi
  rcases h6 i hi with hq | hd
  · rw [hw.1] at hq
    exact absurd hq (List.not_mem_nil i)
  · have hm := h7.mem_iff.mp hd
    rw [hw.2] at hm
    simpa using hm

/-- C8 witness: after one task was submitted, dequeued and finished,
`Wait`'s return condition holds, no `Stop` happened, and indeed the one
issued handle is written. -/
theorem claim_C8_wait_completeness_witness :
    (∀ i, i < poolC.nextId → i ∈ poolC.done) ∧ Wait poolC = poolC :=
  claim_C8_wait_completeness (mkThreadPool_Inv 1 4 250) reach_poolC
    (by decide) ⟨rfl, rfl⟩

end Cpr
